import Mathlib

/-!
Verification of the GST calculator module (`src/gst_app.py`).

The arithmetic of the program is modelled over `ℚ`.  Python's optional
`rounding` argument (which the UI supplies as `None`, `1.0` or `0.5`) is
modelled as `Option ℚ`; the truthiness test `if rounding:` is modelled by
`truthy`, which is `false` exactly for `none` and `some 0`.  Python's
one-argument `round` rounds to the nearest integer with ties to even, which
`roundHalfEven` implements exactly on rationals.
-/

namespace GstApp

/-- Round a rational to the nearest integer, ties to even: the model of
Python's built-in one-argument `round`. -/
def roundHalfEven (x : ℚ) : ℤ :=
  let f : ℤ := ⌊x⌋
  let frac : ℚ := x - f
  if frac < 1/2 then f
  else if 1/2 < frac then f + 1
  else if f % 2 = 0 then f else f + 1

/-- The rounding step the source applies to each quantity when rounding is
active: `round(x / rounding) * rounding`. -/
def roundTo (x r : ℚ) : ℚ :=
  (roundHalfEven (x / r) : ℚ) * r

/-- Python truthiness of the optional `rounding` argument: `None` and `0`
are falsy, every other number is truthy. -/
def truthy (rounding : Option ℚ) : Bool :=
  match rounding with
  | none => false
  | some r => decide (r ≠ 0)

/-- Apply the source's `if rounding: x = round(x / rounding) * rounding`
pattern to a single quantity. -/
def applyRounding (rounding : Option ℚ) (x : ℚ) : ℚ :=
  if truthy rounding then roundTo x (rounding.getD 0) else x

/-- The record produced by each conversion helper.  The Python functions
return 5-tuples in varying orders; the UI handlers name the components as
below, which is the shared data shape. -/
structure ConversionResult where
  base : ℚ
  gst : ℚ
  cgst : ℚ
  sgst : ℚ
  total : ℚ
  deriving DecidableEq, Repr

/-- Model of `calc_from_included` (src/gst_app.py lines 12-26): given a
GST-inclusive total and a rate, recover the base and the GST amount;
negative rates are clamped to 0; `base` and `gst` are rounded
independently when rounding is active, the returned total is the input. -/
def calc_from_included (total_price rate : ℚ) (rounding : Option ℚ) : ConversionResult :=
  let rate' := if rate < 0 then 0 else rate
  let base := total_price / (1 + rate')
  let gst := total_price - base
  let base' := applyRounding rounding base
  let gst' := applyRounding rounding gst
  { base := base', gst := gst', cgst := gst' / 2, sgst := gst' / 2, total := total_price }

/-- Model of `calc_from_excluded` (src/gst_app.py lines 28-40): given a
GST-exclusive base and a rate, compute the GST amount and the total;
`gst` and `total` are rounded independently when rounding is active, the
returned base is the input. -/
def calc_from_excluded (base_price rate : ℚ) (rounding : Option ℚ) : ConversionResult :=
  let gst := base_price * rate
  let total := base_price + gst
  let gst' := applyRounding rounding gst
  let total' := applyRounding rounding total
  { base := base_price, gst := gst', cgst := gst' / 2, sgst := gst' / 2, total := total' }

/-- Model of `calc_from_gst_amount` (src/gst_app.py lines 42-54): given a
GST amount and a rate, compute base and total; `rate == 0` yields base 0
instead of dividing; `base` and `total` are rounded independently when
rounding is active; `cgst`/`sgst` split the original unrounded input. -/
def calc_from_gst_amount (gst_amount rate : ℚ) (rounding : Option ℚ) : ConversionResult :=
  let base := if rate ≠ 0 then gst_amount / rate else 0
  let total := base + gst_amount
  let base' := applyRounding rounding base
  let total' := applyRounding rounding total
  { base := base', gst := gst_amount, cgst := gst_amount / 2, sgst := gst_amount / 2,
    total := total' }

/-- A history entry: the dict the UI handlers build and pass to
`add_history`. -/
structure HistoryEntry where
  timestamp : String
  mode : String
  rate_pct : ℚ
  base : ℚ
  gst : ℚ
  cgst : ℚ
  sgst : ℚ
  total : ℚ
  deriving DecidableEq, Repr

/-- The session's history slot: `none` models `"history" not in
st.session_state`, `some h` models the stored list (newest first). -/
abbrev Ledger := Option (List HistoryEntry)

/-- Model of `add_history` (src/gst_app.py lines 56-62): create the list if
absent, insert the entry at the front, keep only the first 10. -/
def add_history (s : Ledger) (entry : HistoryEntry) : Ledger :=
  some ((entry :: s.getD []).take 10)

/-- Model of the Clear History handler (src/gst_app.py line 143):
`st.session_state.history = []`. -/
def clear_history (_s : Ledger) : Ledger :=
  some []

/-- Two-decimal rendering of a rational amount, modelling the `:.2f`
format applied to currency fields in the text export. -/
def fmt2 (q : ℚ) : String :=
  let cents := roundHalfEven (q * 100)
  let sign := if cents < 0 then "-" else ""
  let n := cents.natAbs
  let centPart := n % 100
  sign ++ toString (n / 100) ++ "." ++ (if centPart < 10 then "0" else "") ++ toString centPart

/-- One CSV row of the data-frame export, in the dict's column order. -/
def csv_row (item : HistoryEntry) : String :=
  item.timestamp ++ "," ++ item.mode ++ "," ++ toString item.rate_pct ++ ","
    ++ toString item.base ++ "," ++ toString item.gst ++ "," ++ toString item.cgst ++ ","
    ++ toString item.sgst ++ "," ++ toString item.total

/-- Model of `history_to_csv` (src/gst_app.py lines 64-68): `None` when the
history slot is absent or the list is empty, otherwise the CSV text. -/
def history_to_csv (s : Ledger) : Option String :=
  match s with
  | none => none
  | some h =>
    if h.isEmpty then none
    else some (String.intercalate "\n"
      ("timestamp,mode,rate_pct,base,gst,cgst,sgst,total" :: h.map csv_row))

/-- One line of the text export (src/gst_app.py line 75). -/
def txt_line (item : HistoryEntry) : String :=
  item.timestamp ++ " | " ++ item.mode ++ " | Rate: " ++ toString item.rate_pct
    ++ "% | Base: ₹" ++ fmt2 item.base ++ " | GST: ₹" ++ fmt2 item.gst
    ++ " | CGST: ₹" ++ fmt2 item.cgst ++ " | SGST: ₹" ++ fmt2 item.sgst
    ++ " | Total: ₹" ++ fmt2 item.total

/-- Model of `history_to_txt` (src/gst_app.py lines 70-76): `None` when the
history slot is absent or the list is empty, otherwise the joined lines. -/
def history_to_txt (s : Ledger) : Option String :=
  match s with
  | none => none
  | some h =>
    if h.isEmpty then none
    else some (String.intercalate "\n" (h.map txt_line))

/-- The usage error the reverse-mode handler surfaces when the rate is 0. -/
inductive UiError where
  | invalidRate
  deriving DecidableEq, Repr

/-- Model of the "Calculate from GST amount" handler (src/gst_app.py lines
234-252): with `rate == 0` it shows an error and does not touch the
history; otherwise it runs `calc_from_gst_amount`, builds the entry and
records it.  The returned pair is the new history slot and the outcome. -/
def reverse_handler (s : Ledger) (timestamp : String) (rate_pct gst_input : ℚ)
    (rounding : Option ℚ) : Ledger × Except UiError ConversionResult :=
  let rate := rate_pct / 100
  if rate = 0 then
    (s, Except.error UiError.invalidRate)
  else
    let r := calc_from_gst_amount gst_input rate rounding
    let entry : HistoryEntry :=
      { timestamp := timestamp, mode := "Reverse (GST→Base)", rate_pct := rate_pct,
        base := r.base, gst := r.gst, cgst := r.cgst, sgst := r.sgst, total := r.total }
    (add_history s entry, Except.ok r)

theorem take_append_take {α : Type _} (a l : List α) (n : ℕ) :
    (a ++ l.take n).take n = (a ++ l).take n := by
  rw [List.take_append_eq_append_take, List.take_append_eq_append_take, List.take_take,
    Nat.min_eq_left (Nat.sub_le n a.length)]

theorem foldl_add_history_eq (es : List HistoryEntry) :
    ∀ s : Ledger, es ≠ [] →
      es.foldl add_history s = some ((es.reverse ++ s.getD []).take 10) := by
  induction es with
  | nil => intro s h; exact absurd rfl h
  | cons e es ih =>
    intro s _
    cases es with
    | nil => simp [add_history]
    | cons e2 es2 =>
      rw [List.foldl_cons, ih (add_history s e) (by simp)]
      congr 1
      rw [show (add_history s e).getD [] = List.take 10 (e :: s.getD []) from rfl,
        take_append_take]
      simp

/-- C1: with rounding disabled, `calc_from_excluded` returns `gst = base * rate`,
`total = base + gst`, and the base field unchanged. -/
theorem C1_from_excluded_no_rounding (base rate : ℚ) (_hb : 0 ≤ base) (_hr : 0 ≤ rate) :
    (calc_from_excluded base rate none).gst = base * rate ∧
    (calc_from_excluded base rate none).total
      = base + (calc_from_excluded base rate none).gst ∧
    (calc_from_excluded base rate none).base = base := by
  refine ⟨?_, ?_, ?_⟩ <;> simp [calc_from_excluded, applyRounding, truthy]

theorem C1_witness :
    ((0 : ℚ) ≤ 100 ∧ (0 : ℚ) ≤ 18/100) ∧
    ((calc_from_excluded 100 (18/100) none).gst = 100 * (18/100) ∧
     (calc_from_excluded 100 (18/100) none).total
       = 100 + (calc_from_excluded 100 (18/100) none).gst ∧
     (calc_from_excluded 100 (18/100) none).base = 100) :=
  ⟨⟨by norm_num, by norm_num⟩,
   C1_from_excluded_no_rounding 100 (18/100) (by norm_num) (by norm_num)⟩

/-- C2: the reverse-mode handler with `rate == 0` signals `invalidRate` and
leaves the history slot untouched. -/
theorem C2_reverse_handler_invalid_rate (s : Ledger) (ts : String) (rate_pct g : ℚ)
    (rounding : Option ℚ) (h : rate_pct / 100 = 0) :
    (reverse_handler s ts rate_pct g rounding).1 = s ∧
    (reverse_handler s ts rate_pct g rounding).2 = Except.error UiError.invalidRate := by
  constructor <;> simp [reverse_handler, h]

theorem C2_witness :
    (0 : ℚ) / 100 = 0 ∧
    ((reverse_handler (some []) "2024-01-01 00:00:00" 0 18 none).1 = some [] ∧
     (reverse_handler (some []) "2024-01-01 00:00:00" 0 18 none).2
       = Except.error UiError.invalidRate) :=
  ⟨by norm_num,
   C2_reverse_handler_invalid_rate (some []) "2024-01-01 00:00:00" 0 18 none (by norm_num)⟩

/-- C3: for every input and rounding choice, all three conversions return
`cgst` and `sgst` each equal to `gst / 2`, so `cgst + sgst = gst` exactly. -/
theorem C3_cgst_sgst_halves (b t g rate : ℚ) (rounding : Option ℚ) :
    ((calc_from_excluded b rate rounding).cgst = (calc_from_excluded b rate rounding).gst / 2 ∧
     (calc_from_excluded b rate rounding).sgst = (calc_from_excluded b rate rounding).gst / 2 ∧
     (calc_from_excluded b rate rounding).cgst + (calc_from_excluded b rate rounding).sgst
       = (calc_from_excluded b rate rounding).gst) ∧
    ((calc_from_included t rate rounding).cgst = (calc_from_included t rate rounding).gst / 2 ∧
     (calc_from_included t rate rounding).sgst = (calc_from_included t rate rounding).gst / 2 ∧
     (calc_from_included t rate rounding).cgst + (calc_from_included t rate rounding).sgst
       = (calc_from_included t rate rounding).gst) ∧
    ((calc_from_gst_amount g rate rounding).cgst
       = (calc_from_gst_amount g rate rounding).gst / 2 ∧
     (calc_from_gst_amount g rate rounding).sgst
       = (calc_from_gst_amount g rate rounding).gst / 2 ∧
     (calc_from_gst_amount g rate rounding).cgst + (calc_from_gst_amount g rate rounding).sgst
       = (calc_from_gst_amount g rate rounding).gst) := by
  refine ⟨⟨rfl, rfl, ?_⟩, ⟨rfl, rfl, ?_⟩, ⟨rfl, rfl, ?_⟩⟩ <;>
    simp [calc_from_excluded, calc_from_included, calc_from_gst_amount]

/-- C4: `add_history` keeps the ledger at length at most 10, and recording 11
entries in sequence from any starting state leaves exactly the 10 most recent
entries, most-recent first. -/
theorem C4_record_capacity (s : Ledger) (e : HistoryEntry) (es : List HistoryEntry)
    (h11 : es.length = 11) :
    ((add_history s e).getD []).length ≤ 10 ∧
    es.foldl add_history s = some (es.reverse.take 10) ∧
    ((es.foldl add_history s).getD []).length = 10 := by
  have hne : es ≠ [] := by intro h; rw [h] at h11; simp at h11
  have hfold := foldl_add_history_eq es s hne
  refine ⟨by simp [add_history], ?_, ?_⟩
  · rw [hfold, List.take_append_eq_append_take]
    simp [h11]
  · rw [hfold]
    simp only [Option.getD_some, List.length_take, List.length_append, List.length_reverse, h11]
    omega

theorem C4_witness :
    (List.replicate 11 { timestamp := "2024-01-01 00:00:00", mode := "Excl → Incl", rate_pct := 18, base := 100, gst := 18, cgst := 9, sgst := 9, total := 118 : HistoryEntry }).length = 11 ∧
    (((add_history none { timestamp := "2024-01-01 00:00:00", mode := "Excl → Incl", rate_pct := 18, base := 100, gst := 18, cgst := 9, sgst := 9, total := 118 : HistoryEntry }).getD []).length ≤ 10 ∧
     (List.replicate 11 { timestamp := "2024-01-01 00:00:00", mode := "Excl → Incl", rate_pct := 18, base := 100, gst := 18, cgst := 9, sgst := 9, total := 118 : HistoryEntry }).foldl add_history none
       = some ((List.replicate 11 { timestamp := "2024-01-01 00:00:00", mode := "Excl → Incl", rate_pct := 18, base := 100, gst := 18, cgst := 9, sgst := 9, total := 118 : HistoryEntry }).reverse.take 10) ∧
     (((List.replicate 11 { timestamp := "2024-01-01 00:00:00", mode := "Excl → Incl", rate_pct := 18, base := 100, gst := 18, cgst := 9, sgst := 9, total := 118 : HistoryEntry }).foldl add_history none).getD []).length = 10) :=
  ⟨by simp,
   C4_record_capacity none _ _ (by simp)⟩

/-- C5: converting a base to a total with `calc_from_excluded` and back with
`calc_from_included`, rounding disabled on both legs, recovers the base
exactly in the rational model. -/
theorem C5_round_trip (base rate : ℚ) (_hb : 0 ≤ base) (hr : 0 ≤ rate) :
    (calc_from_included (calc_from_excluded base rate none).total rate none).base = base := by
  have h1 : ¬ rate < 0 := not_lt.2 hr
  have h2 : (1 : ℚ) + rate ≠ 0 := by positivity
  simp [calc_from_excluded, calc_from_included, applyRounding, truthy, h1]
  field_simp
  ring

theorem C5_witness :
    ((0 : ℚ) ≤ 100 ∧ (0 : ℚ) ≤ 18/100) ∧
    (calc_from_included (calc_from_excluded 100 (18/100) none).total (18/100) none).base
      = 100 :=
  ⟨⟨by norm_num, by norm_num⟩, C5_round_trip 100 (18/100) (by norm_num) (by norm_num)⟩

/-- C6: `calc_from_included` clamps a negative rate to 0, and with rounding
disabled returns `base = total / (1 + rate)` (clamped rate) and
`gst = total - base`. -/
theorem C6_from_included_formulas (total rate : ℚ) (_ht : 0 ≤ total) :
    calc_from_included total rate none
      = calc_from_included total (if rate < 0 then 0 else rate) none ∧
    (calc_from_included total rate none).base
      = total / (1 + (if rate < 0 then 0 else rate)) ∧
    (calc_from_included total rate none).gst
      = total - (calc_from_included total rate none).base := by
  refine ⟨?_, ?_, ?_⟩
  · by_cases h : rate < 0 <;> simp [calc_from_included, h]
  · simp [calc_from_included, applyRounding, truthy]
  · simp [calc_from_included, applyRounding, truthy]

theorem C6_witness :
    (0 : ℚ) ≤ 118 ∧
    (calc_from_included 118 (18/100) none
       = calc_from_included 118 (if (18/100 : ℚ) < 0 then 0 else 18/100) none ∧
     (calc_from_included 118 (18/100) none).base
       = 118 / (1 + (if (18/100 : ℚ) < 0 then 0 else 18/100)) ∧
     (calc_from_included 118 (18/100) none).gst
       = 118 - (calc_from_included 118 (18/100) none).base) :=
  ⟨by norm_num, C6_from_included_formulas 118 (18/100) (by norm_num)⟩

/-- C7: for every positive increment the rounded quantities of all three
operations equal `round(x / r) * r` (ties to even) applied to their
unrounded values; a rounding argument of `none` or `0` applies no rounding;
and `calc_from_excluded 100 0.18 0.5` yields `gst = 18`, `total = 118`. -/
theorem C7_rounding_policy (x r b t g rate : ℚ) (hr : 0 < r) :
    roundTo x r = (roundHalfEven (x / r) : ℚ) * r ∧
    (calc_from_excluded b rate (some r)).gst
      = roundTo ((calc_from_excluded b rate none).gst) r ∧
    (calc_from_excluded b rate (some r)).total
      = roundTo ((calc_from_excluded b rate none).total) r ∧
    (calc_from_included t rate (some r)).base
      = roundTo ((calc_from_included t rate none).base) r ∧
    (calc_from_included t rate (some r)).gst
      = roundTo ((calc_from_included t rate none).gst) r ∧
    (calc_from_gst_amount g rate (some r)).base
      = roundTo ((calc_from_gst_amount g rate none).base) r ∧
    (calc_from_gst_amount g rate (some r)).total
      = roundTo ((calc_from_gst_amount g rate none).total) r ∧
    calc_from_excluded b rate (some 0) = calc_from_excluded b rate none ∧
    calc_from_included t rate (some 0) = calc_from_included t rate none ∧
    calc_from_gst_amount g rate (some 0) = calc_from_gst_amount g rate none ∧
    (calc_from_excluded b rate none).gst = b * rate ∧
    (calc_from_excluded 100 (18/100) (some (1/2))).gst = 18 ∧
    (calc_from_excluded 100 (18/100) (some (1/2))).total = 118 := by
  have hr0 : r ≠ 0 := ne_of_gt hr
  refine ⟨rfl, ?_, ?_, ?_, ?_, ?_, ?_, ?_, ?_, ?_, ?_, ?_, ?_⟩
  · simp [calc_from_excluded, applyRounding, truthy, hr0]
  · simp [calc_from_excluded, applyRounding, truthy, hr0]
  · simp [calc_from_included, applyRounding, truthy, hr0]
  · simp [calc_from_included, applyRounding, truthy, hr0]
  · simp [calc_from_gst_amount, applyRounding, truthy, hr0]
  · simp [calc_from_gst_amount, applyRounding, truthy, hr0]
  · simp [calc_from_excluded, applyRounding, truthy]
  · simp [calc_from_included, applyRounding, truthy]
  · simp [calc_from_gst_amount, applyRounding, truthy]
  · simp [calc_from_excluded, applyRounding, truthy]
  · norm_num [calc_from_excluded, applyRounding, truthy, roundTo, roundHalfEven]
  · norm_num [calc_from_excluded, applyRounding, truthy, roundTo, roundHalfEven]

theorem C7_witness :
    (0 : ℚ) < 1/2 ∧
    (roundTo 18 (1/2) = (roundHalfEven (18 / (1/2)) : ℚ) * (1/2) ∧
     (calc_from_excluded 100 (18/100) (some (1/2))).gst
       = roundTo ((calc_from_excluded 100 (18/100) none).gst) (1/2) ∧
     (calc_from_excluded 100 (18/100) (some (1/2))).total
       = roundTo ((calc_from_excluded 100 (18/100) none).total) (1/2) ∧
     (calc_from_included 118 (18/100) (some (1/2))).base
       = roundTo ((calc_from_included 118 (18/100) none).base) (1/2) ∧
     (calc_from_included 118 (18/100) (some (1/2))).gst
       = roundTo ((calc_from_included 118 (18/100) none).gst) (1/2) ∧
     (calc_from_gst_amount 18 (18/100) (some (1/2))).base
       = roundTo ((calc_from_gst_amount 18 (18/100) none).base) (1/2) ∧
     (calc_from_gst_amount 18 (18/100) (some (1/2))).total
       = roundTo ((calc_from_gst_amount 18 (18/100) none).total) (1/2) ∧
     calc_from_excluded 100 (18/100) (some 0) = calc_from_excluded 100 (18/100) none ∧
     calc_from_included 118 (18/100) (some 0) = calc_from_included 118 (18/100) none ∧
     calc_from_gst_amount 18 (18/100) (some 0) = calc_from_gst_amount 18 (18/100) none ∧
     (calc_from_excluded 100 (18/100) none).gst = 100 * (18/100) ∧
     (calc_from_excluded 100 (18/100) (some (1/2))).gst = 18 ∧
     (calc_from_excluded 100 (18/100) (some (1/2))).total = 118) :=
  ⟨by norm_num, C7_rounding_policy 18 (1/2) 100 118 18 (18/100) (by norm_num)⟩

/-- C8: clearing yields an empty ledger and both exports return `none` on an
absent or empty ledger without error. -/
theorem C8_clear_and_empty_exports (s : Ledger) (_h : s.getD [] ≠ []) :
    ((clear_history s).getD []).length = 0 ∧
    history_to_csv none = none ∧
    history_to_csv (some []) = none ∧
    history_to_txt none = none ∧
    history_to_txt (some []) = none ∧
    history_to_csv (clear_history s) = none ∧
    history_to_txt (clear_history s) = none := by
  refine ⟨?_, ?_, ?_, ?_, ?_, ?_, ?_⟩ <;>
    simp [clear_history, history_to_csv, history_to_txt]

theorem C8_witness :
    ((some [{ timestamp := "2024-01-01 00:00:00", mode := "Excl → Incl", rate_pct := 18, base := 100, gst := 18, cgst := 9, sgst := 9, total := 118 : HistoryEntry }] : Ledger).getD [] ≠ []) ∧
    (((clear_history
          (some [{ timestamp := "2024-01-01 00:00:00", mode := "Excl → Incl", rate_pct := 18, base := 100, gst := 18, cgst := 9, sgst := 9, total := 118 : HistoryEntry }])).getD []).length = 0 ∧
     history_to_csv none = none ∧
     history_to_csv (some []) = none ∧
     history_to_txt none = none ∧
     history_to_txt (some []) = none ∧
     history_to_csv (clear_history
        (some [{ timestamp := "2024-01-01 00:00:00", mode := "Excl → Incl", rate_pct := 18, base := 100, gst := 18, cgst := 9, sgst := 9, total := 118 : HistoryEntry }])) = none ∧
     history_to_txt (clear_history
        (some [{ timestamp := "2024-01-01 00:00:00", mode := "Excl → Incl", rate_pct := 18, base := 100, gst := 18, cgst := 9, sgst := 9, total := 118 : HistoryEntry }])) = none) :=
  ⟨by simp, C8_clear_and_empty_exports _ (by simp)⟩

/-- C9: `calc_from_included` always returns the input total unchanged, and at
`total = 100.3`, `rate = 0.18`, rounding to 1 the rounded `base + gst` is 100,
which differs from the returned total. -/
theorem C9_total_not_rerounded :
    (∀ (t rate : ℚ) (rounding : Option ℚ), (calc_from_included t rate rounding).total = t) ∧
    (calc_from_included (1003/10) (18/100) (some 1)).total = 1003/10 ∧
    (calc_from_included (1003/10) (18/100) (some 1)).base
      + (calc_from_included (1003/10) (18/100) (some 1)).gst = 100 ∧
    (100 : ℚ) ≠ 1003/10 := by
  refine ⟨fun t rate rounding => rfl, rfl, ?_, by norm_num⟩
  norm_num [calc_from_included, applyRounding, truthy, roundTo, roundHalfEven]

theorem C10_counterexample :
    (calc_from_gst_amount (3/10) 0 (some 1)).base = 0 ∧
    (calc_from_gst_amount (3/10) 0 (some 1)).total = 0 ∧
    (0 : ℚ) ≠ 3/10 := by
  refine ⟨?_, ?_, by norm_num⟩ <;>
    norm_num [calc_from_gst_amount, applyRounding, truthy, roundTo, roundHalfEven]

/-- C10 (amended): `calc_from_gst_amount` with `rate = 0` always returns
`base = 0`; the total equals `gst_amount` when rounding is inactive (`none`
or `0`) and equals `roundTo gst_amount r` for an active increment `r`. -/
theorem C10_rate_zero_behaviour (g r : ℚ) :
    (∀ rounding : Option ℚ, (calc_from_gst_amount g 0 rounding).base = 0) ∧
    (calc_from_gst_amount g 0 none).total = g ∧
    (calc_from_gst_amount g 0 (some 0)).total = g ∧
    (calc_from_gst_amount g 0 (some r)).total = (if r = 0 then g else roundTo g r) := by
  refine ⟨?_, ?_, ?_, ?_⟩
  · intro rounding
    cases rounding with
    | none => simp [calc_from_gst_amount, applyRounding, truthy]
    | some r' =>
      by_cases h : r' = 0 <;>
        norm_num [calc_from_gst_amount, applyRounding, truthy, h, roundTo, roundHalfEven]
  · simp [calc_from_gst_amount, applyRounding, truthy]
  · simp [calc_from_gst_amount, applyRounding, truthy]
  · by_cases h : r = 0 <;> simp [calc_from_gst_amount, applyRounding, truthy, h]

end GstApp
